import Mathlib

/-!
Verification model of the esp-mcp process-execution core.

The definitions below are shallow embeddings of `src/esp_utils.py` and
`src/main.py`:

- `run_command_async` and `run_command_async_stream` model the two process
  runners.  A run of the subprocess machinery is abstracted as an
  `Except String _` value: `Except.ok` carries what the child process
  produced, `Except.error` carries the message of a raised exception.  The
  whole Python body of each runner sits inside one `try/except Exception`
  block, which the `match` on the `Except` value mirrors.
- For the streaming runner, the child's output is a list of tagged lines
  `(tag, text)` in arrival order (`tag = true` for stdout): `readline` on a
  stream yields the stream's lines in order, and any interleaving of the two
  streams is a list whose per-tag projections are those line sequences.
  Each event appends one tagged write to the log file (the write is one log
  line, since `readline` keeps the trailing newline) and one chunk to the
  in-memory buffer of its stream, exactly as `_read_stream` does.
- `flashLoop` models the retry loop of `flash_esp_project`
  (src/main.py lines 179-187) including the initial `(1, "", "")` result,
  and counts runner invocations and `time.sleep(delay)` calls.
- The port enumerator (`list_serial_ports`) is modelled over `PortInfo`
  records; string comparison of the Python sort key is modelled as
  lexicographic comparison of code-point lists, which is exactly how Python
  compares `(int, str)` tuples.
- The toolchain-path resolution (`get_esp_idf_dir`, `get_export_script`)
  and the pre-execution part of each tool operation are modelled by
  `ToolStep`: raise, return an error tuple, or proceed to execute a command.
- The log files each tool writes are recorded in `...logWrites` lists, and
  the working-directory side effects as action lists interpreted by
  `execActs` (with `tryFinallyCwd` for the `try/finally` shape).
-/

/-! ## Process runners (src/esp_utils.py) -/

/-- Result of one streaming-runner call: exit code, accumulated stdout and
stderr text, and the sequence of strings appended to the log file. -/
structure StreamRun where
  exitCode : Int
  stdout : String
  stderr : String
  log : List String
deriving DecidableEq

/-- The stream tag written before each log line: `"[stdout] "` or
`"[stderr] "` (src/esp_utils.py lines 61-62). -/
def streamTag (isOut : Bool) : String :=
  if isOut then "[stdout] " else "[stderr] "

/-- One pass over the arrival-ordered tagged lines, as the two `_read_stream`
loops perform it (src/esp_utils.py lines 49-58): the first component is the
list of strings appended to the log file, the second and third are the
stdout and stderr chunk buffers. -/
def readStreams : List (Bool × String) → List String × List String × List String
  | [] => ([], [], [])
  | e :: rest =>
      ((streamTag e.1 ++ e.2) :: (readStreams rest).1,
       if e.1 then e.2 :: (readStreams rest).2.1 else (readStreams rest).2.1,
       if e.1 then (readStreams rest).2.2 else e.2 :: (readStreams rest).2.2)

/-- The stdout lines of an interleaved event list, in order. -/
def projOut (evs : List (Bool × String)) : List String :=
  evs.filterMap (fun e => if e.1 then some e.2 else none)

/-- The stderr lines of an interleaved event list, in order. -/
def projErr (evs : List (Bool × String)) : List String :=
  evs.filterMap (fun e => if e.1 then none else some e.2)

/-- Concatenation of a list of strings, as Python's `"".join(chunks)`. -/
def strConcat : List String → String
  | [] => ""
  | s :: rest => s ++ strConcat rest

/-- Whether `p` is a prefix of `s`, character by character. -/
def strStartsWith (p s : String) : Bool :=
  List.isPrefixOf p.data s.data

/-- Model of `run_command_async` (src/esp_utils.py lines 9-27): the entire
body is inside `try/except Exception`, so the function is total; an internal
exception with message `e` yields the synthetic result
`(1, "", "Error executing command: " ++ e)`. -/
def run_command_async (outcome : Except String (Int × String × String)) :
    Int × String × String :=
  match outcome with
  | Except.ok r => r
  | Except.error e => (1, "", "Error executing command: " ++ e)

/-- Model of `run_command_async_stream` (src/esp_utils.py lines 29-68): on a
normal run the child produced exit code `rc` and the interleaved tagged
lines `evs`; the runner drains both streams, writing each tagged line to the
log and accumulating per-stream buffers, then returns the joined texts.  An
internal exception is converted to the synthetic error triple (the log
writes made before the exception are not modelled in the error case). -/
def run_command_async_stream (outcome : Except String (Int × List (Bool × String))) :
    StreamRun :=
  match outcome with
  | Except.ok (rc, evs) =>
      ⟨rc, strConcat (readStreams evs).2.1, strConcat (readStreams evs).2.2,
       (readStreams evs).1⟩
  | Except.error e => ⟨1, "", "Error executing command: " ++ e, []⟩

/-! ## Flash retry loop (src/main.py lines 179-187) -/

/-- The body of the retry loop, with `run i` the result of the i-th
invocation of the streaming runner on the flash command.  Returns the final
`(returncode, stdout, stderr)` triple, the number of runner invocations and
the number of `time.sleep(delay)` calls.  Mirrors the source exactly: on a
zero exit code the loop breaks at once; on a nonzero exit code it logs,
sleeps and continues — also on the last iteration. -/
def flashLoop (run : Nat → Int × String × String) :
    Nat → Nat → (Int × String × String) → ((Int × String × String) × Nat × Nat)
  | _, 0, prev => (prev, 0, 0)
  | i, fuel + 1, _ =>
      if (run i).1 = 0 then (run i, 1, 0)
      else
        ((flashLoop run (i + 1) fuel (run i)).1,
         (flashLoop run (i + 1) fuel (run i)).2.1 + 1,
         (flashLoop run (i + 1) fuel (run i)).2.2 + 1)

/-- The retry loop as `flash_esp_project` runs it: attempts are numbered from
1, `retries` is the bound, and the variables start as `1, "", ""`
(src/main.py lines 179-181). -/
def flash_retry_loop (run : Nat → Int × String × String) (retries : Nat) :
    (Int × String × String) × Nat × Nat :=
  flashLoop run 1 retries (1, "", "")

/-- A concrete attempt sequence used to exercise the retry loop: the first
attempt fails, every later attempt succeeds. -/
def flashProbe : Nat → Int × String × String :=
  fun i => if i = 1 then (1, "", "err") else (0, "done", "")

/-! ## Working-directory side effects (src/main.py) -/

/-- A primitive working-directory-relevant action of a tool body: an
`os.chdir` call, or the rest of the body, which either completes or raises. -/
inductive CwdAct where
  | chdir (d : String)
  | body (ok : Bool)

/-- Run a list of actions from working directory `cwd`: final working
directory and whether the run completed without raising.  A raising body
aborts the remaining actions, as a Python exception would. -/
def execActs : String → List CwdAct → String × Bool
  | cwd, [] => (cwd, true)
  | _, CwdAct.chdir d :: rest => execActs d rest
  | cwd, CwdAct.body ok :: rest => if ok then execActs cwd rest else (cwd, false)

/-- `try: bodyActs finally: finActs` from working directory `cwd`: the
finally actions always run, from wherever the body left the directory. -/
def tryFinallyCwd (cwd : String) (bodyActs finActs : List CwdAct) : String × Bool :=
  ((execActs (execActs cwd bodyActs).1 finActs).1,
   (execActs cwd bodyActs).2 && (execActs (execActs cwd bodyActs).1 finActs).2)

/-- `build_esp_project` (src/main.py line 49): `os.chdir(project_path)` with
no save or restore of the previous directory. -/
def build_esp_project_cwd (cwd0 project : String) (ok : Bool) : String × Bool :=
  execActs cwd0 [CwdAct.chdir project, CwdAct.body ok]

/-- `setup_project_esp_target` (src/main.py line 98): bare `os.chdir`. -/
def setup_project_esp_target_cwd (cwd0 project : String) (ok : Bool) : String × Bool :=
  execActs cwd0 [CwdAct.chdir project, CwdAct.body ok]

/-- `create_esp_project` (src/main.py line 128): bare `os.chdir` after
`os.makedirs`. -/
def create_esp_project_cwd (cwd0 project : String) (ok : Bool) : String × Bool :=
  execActs cwd0 [CwdAct.chdir project, CwdAct.body ok]

/-- `flash_esp_project` (src/main.py line 153): bare `os.chdir`. -/
def flash_esp_project_cwd (cwd0 project : String) (ok : Bool) : String × Bool :=
  execActs cwd0 [CwdAct.chdir project, CwdAct.body ok]

/-- `run_esp_idf_install` (src/main.py lines 257-283): `original_dir`
captured, `os.chdir(esp_idf_dir)` inside `try`, `os.chdir(original_dir)` in
`finally`. -/
def run_esp_idf_install_cwd (cwd0 espDir : String) (ok : Bool) : String × Bool :=
  tryFinallyCwd cwd0 [CwdAct.chdir espDir, CwdAct.body ok] [CwdAct.chdir cwd0]

/-- `run_pytest` (src/main.py lines 309-333): same `try/finally` shape. -/
def run_pytest_cwd (cwd0 project : String) (ok : Bool) : String × Bool :=
  tryFinallyCwd cwd0 [CwdAct.chdir project, CwdAct.body ok] [CwdAct.chdir cwd0]

/-! ## Helper lemmas for the streaming runner -/

theorem strStartsWith_out_self (t : String) :
    strStartsWith "[stdout] " ("[stdout] " ++ t) = true := by
  simp [strStartsWith, List.isPrefixOf]

theorem strStartsWith_err_self (t : String) :
    strStartsWith "[stderr] " ("[stderr] " ++ t) = true := by
  simp [strStartsWith, List.isPrefixOf]

theorem strStartsWith_out_err (t : String) :
    strStartsWith "[stdout] " ("[stderr] " ++ t) = false := by
  simp [strStartsWith, List.isPrefixOf]

theorem strStartsWith_err_out (t : String) :
    strStartsWith "[stderr] " ("[stdout] " ++ t) = false := by
  simp [strStartsWith, List.isPrefixOf]

theorem readStreams_out (evs : List (Bool × String)) :
    (readStreams evs).2.1 = projOut evs := by
  induction evs with
  | nil => rfl
  | cons e rest ih =>
      obtain ⟨t, x⟩ := e
      cases t <;> simp [readStreams, projOut, List.filterMap_cons, ih]

theorem readStreams_err (evs : List (Bool × String)) :
    (readStreams evs).2.2 = projErr evs := by
  induction evs with
  | nil => rfl
  | cons e rest ih =>
      obtain ⟨t, x⟩ := e
      cases t <;> simp [readStreams, projErr, List.filterMap_cons, ih]

theorem readStreams_count_out (evs : List (Bool × String)) :
    (readStreams evs).1.countP (fun s => strStartsWith "[stdout] " s)
      = (projOut evs).length := by
  induction evs with
  | nil => rfl
  | cons e rest ih =>
      obtain ⟨t, x⟩ := e
      cases t
      · simpa [readStreams, streamTag, projOut, List.filterMap_cons,
          List.countP_cons, strStartsWith_out_err] using ih
      · simpa [readStreams, streamTag, projOut, List.filterMap_cons,
          List.countP_cons, strStartsWith_out_self] using ih

theorem readStreams_count_err (evs : List (Bool × String)) :
    (readStreams evs).1.countP (fun s => strStartsWith "[stderr] " s)
      = (projErr evs).length := by
  induction evs with
  | nil => rfl
  | cons e rest ih =>
      obtain ⟨t, x⟩ := e
      cases t
      · simpa [readStreams, streamTag, projErr, List.filterMap_cons,
          List.countP_cons, strStartsWith_err_self] using ih
      · simpa [readStreams, streamTag, projErr, List.filterMap_cons,
          List.countP_cons, strStartsWith_err_out] using ih

theorem readStreams_log_len (evs : List (Bool × String)) :
    (readStreams evs).1.length = (projOut evs).length + (projErr evs).length := by
  induction evs with
  | nil => rfl
  | cons e rest ih =>
      obtain ⟨t, x⟩ := e
      cases t
      · simp [readStreams, projOut, projErr, List.filterMap_cons] at ih ⊢
        omega
      · simp [readStreams, projOut, projErr, List.filterMap_cons] at ih ⊢
        omega

/-! ## Helper lemmas for the flash retry loop -/

theorem flashLoop_calls_le (run : Nat → Int × String × String) :
    ∀ (fuel i : Nat) (prev : Int × String × String),
      (flashLoop run i fuel prev).2.1 ≤ fuel := by
  intro fuel
  induction fuel with
  | zero => intro i prev; simp [flashLoop]
  | succ f ih =>
      intro i prev
      by_cases h0 : (run i).1 = 0
      · simp [flashLoop, h0]
      · simp only [flashLoop, h0, if_false]
        have := ih (i + 1) (run i)
        omega

theorem flashLoop_all_fail (run : Nat → Int × String × String) :
    ∀ (fuel i : Nat) (prev : Int × String × String),
      1 ≤ fuel → (∀ j, i ≤ j → j < i + fuel → (run j).1 ≠ 0) →
      flashLoop run i fuel prev = (run (i + fuel - 1), fuel, fuel) := by
  intro fuel
  induction fuel with
  | zero => intro i prev h; omega
  | succ f ih =>
      intro i prev _ hfail
      have hne : (run i).1 ≠ 0 := hfail i (le_refl i) (by omega)
      by_cases hf : f = 0
      · subst hf
        simp [flashLoop, hne]
      · have ih2 := ih (i + 1) (run i) (by omega)
          (fun j h1 h2 => hfail j (by omega) (by omega))
        have e1 : i + 1 + f - 1 = i + (f + 1) - 1 := by omega
        rw [e1] at ih2
        simp [flashLoop, hne, ih2]

theorem flashLoop_success (run : Nat → Int × String × String) :
    ∀ (fuel i : Nat) (prev : Int × String × String) (k : Nat),
      i ≤ k → k < i + fuel → (run k).1 = 0 →
      (∀ j, i ≤ j → j < k → (run j).1 ≠ 0) →
      flashLoop run i fuel prev = (run k, k - i + 1, k - i) := by
  intro fuel
  induction fuel with
  | zero => intro i prev k h1 h2 _ _; omega
  | succ f ih =>
      intro i prev k h1 h2 h0 hfail
      by_cases hik : k = i
      · subst hik
        simp [flashLoop, h0]
      · have hi : i < k := by omega
        have hne : (run i).1 ≠ 0 := hfail i (le_refl i) hi
        have ih2 := ih (i + 1) (run i) k (by omega) (by omega) h0
          (fun j hj1 hj2 => hfail j (by omega) hj2)
        simp [flashLoop, hne, ih2]
        omega

/-! ## Claim theorems: streaming runner, error synthesis, retry loop, cwd -/

/-- Claim C1: for any exit code and any interleaving `evs` of the stdout and
stderr line sequences (its two projections), one call of the streaming
runner appends exactly one `"[stdout] "`-tagged log line per stdout line and
one `"[stderr] "`-tagged log line per stderr line and nothing else, and
returns stdout and stderr texts equal to the concatenations of the
respective projections in order.  Every quantity depends only on the
per-stream projections, so the result is independent of how the two streams
interleave. -/
theorem stream_runner_log_and_output (evs : List (Bool × String)) (rc : Int) :
    (run_command_async_stream (Except.ok (rc, evs))).exitCode = rc
  ∧ (run_command_async_stream (Except.ok (rc, evs))).stdout = strConcat (projOut evs)
  ∧ (run_command_async_stream (Except.ok (rc, evs))).stderr = strConcat (projErr evs)
  ∧ (run_command_async_stream (Except.ok (rc, evs))).log.countP
        (fun s => strStartsWith "[stdout] " s) = (projOut evs).length
  ∧ (run_command_async_stream (Except.ok (rc, evs))).log.countP
        (fun s => strStartsWith "[stderr] " s) = (projErr evs).length
  ∧ (run_command_async_stream (Except.ok (rc, evs))).log.length
        = (projOut evs).length + (projErr evs).length := by
  refine ⟨rfl, ?_, ?_, ?_, ?_, ?_⟩
  · show strConcat (readStreams evs).2.1 = _
    rw [readStreams_out]
  · show strConcat (readStreams evs).2.2 = _
    rw [readStreams_err]
  · exact readStreams_count_out evs
  · exact readStreams_count_err evs
  · exact readStreams_log_len evs

/-- Claim C2: both runners are total functions of the run outcome (no
exception escapes: the whole Python body of each sits in a
`try/except Exception`), and on any internal failure with detail `e` each
returns exit code 1, empty stdout and the stderr text
`"Error executing command: " ++ e`; a normal outcome is passed through. -/
theorem runners_error_synthesis (e : String) (r : Int × String × String)
    (rc : Int) (evs : List (Bool × String)) :
    run_command_async (Except.error e) = (1, "", "Error executing command: " ++ e)
  ∧ run_command_async (Except.ok r) = r
  ∧ (run_command_async_stream (Except.error e)).exitCode = 1
  ∧ (run_command_async_stream (Except.error e)).stdout = ""
  ∧ (run_command_async_stream (Except.error e)).stderr
      = "Error executing command: " ++ e
  ∧ (run_command_async_stream (Except.ok (rc, evs))).exitCode = rc :=
  ⟨rfl, rfl, rfl, rfl, rfl, rfl⟩

/-- Claim C3, counterexample to the claim as stated: with max attempts
N = 1 and an always-failing command the loop performs 1 sleep, not 0 — the
source sleeps after every failed attempt, including the last one, because
`time.sleep(delay)` runs before the loop condition is rechecked.  The claim
says no suspension happens after the last attempt. -/
theorem flash_retry_sleep_after_last_failure :
    (flash_retry_loop (fun _ => ((1 : Int), "", "boom")) 1).2.2 = 1
  ∧ (1 : Nat) ≠ 0 :=
  ⟨rfl, by decide⟩

/-- Claim C3 as amended: for N ≥ 1 the loop invokes the streaming runner at
most N times; if every attempt fails it returns the N-th attempt's triple
unmodified, invoking exactly N times and sleeping N times (after every
failed attempt, including the final one); if attempt k is the first with
exit code 0 it stops immediately with that attempt's triple, invoking
exactly k times and sleeping k - 1 times (between consecutive attempts
only, never after the successful one). -/
theorem flash_retry_policy (run : Nat → Int × String × String) (N : Nat)
    (hN : 1 ≤ N) :
    (flash_retry_loop run N).2.1 ≤ N
  ∧ ((∀ i, 1 ≤ i → i ≤ N → (run i).1 ≠ 0) →
        (flash_retry_loop run N).1 = run N
        ∧ (flash_retry_loop run N).2.1 = N
        ∧ (flash_retry_loop run N).2.2 = N)
  ∧ (∀ k, 1 ≤ k → k ≤ N → (run k).1 = 0 →
        (∀ i, 1 ≤ i → i < k → (run i).1 ≠ 0) →
        (flash_retry_loop run N).1 = run k
        ∧ (flash_retry_loop run N).2.1 = k
        ∧ (flash_retry_loop run N).2.2 = k - 1) := by
  refine ⟨?_, ?_, ?_⟩
  · exact flashLoop_calls_le run N 1 (1, "", "")
  · intro hall
    have h := flashLoop_all_fail run N 1 (1, "", "") hN
      (fun j h1 h2 => hall j h1 (by omega))
    have e1 : 1 + N - 1 = N := by omega
    rw [e1] at h
    exact ⟨by rw [flash_retry_loop, h], by rw [flash_retry_loop, h],
      by rw [flash_retry_loop, h]⟩
  · intro k hk1 hkN hk0 hprev
    have h := flashLoop_success run N 1 (1, "", "") k hk1 (by omega) hk0
      (fun j hj1 hj2 => hprev j hj1 hj2)
    have e1 : k - 1 + 1 = k := by omega
    rw [e1] at h
    exact ⟨by rw [flash_retry_loop, h], by rw [flash_retry_loop, h],
      by rw [flash_retry_loop, h]⟩

/-- Witness for the amended retry-loop theorem at a concrete input: with the
probe sequence (attempt 1 fails, attempt 2 succeeds) and N = 2, the loop
returns attempt 2's result after exactly 2 invocations and 1 sleep. -/
theorem flash_retry_policy_witness :
    1 ≤ 2
  ∧ (flash_retry_loop flashProbe 2).1 = flashProbe 2
  ∧ (flash_retry_loop flashProbe 2).2.1 = 2
  ∧ (flash_retry_loop flashProbe 2).2.2 = 1 := by
  have h := (flash_retry_policy flashProbe 2 (by decide)).2.2 2 (by decide)
    (by decide) (by decide)
    (fun i h1 h2 => by
      have : i = 1 := by omega
      subst this
      decide)
  exact ⟨by decide, h.1, h.2.1, h.2.2⟩

/-- Claim C10: `build_esp_project`, `setup_project_esp_target`,
`create_esp_project` and `flash_esp_project` leave the process-wide working
directory at the project path (no restore), while `run_esp_idf_install` and
`run_pytest` restore the original working directory through `try/finally`,
whether or not the body completed. -/
theorem cwd_discipline (cwd0 project espDir : String) (ok : Bool) :
    (build_esp_project_cwd cwd0 project ok).1 = project
  ∧ (setup_project_esp_target_cwd cwd0 project ok).1 = project
  ∧ (create_esp_project_cwd cwd0 project ok).1 = project
  ∧ (flash_esp_project_cwd cwd0 project ok).1 = project
  ∧ (run_esp_idf_install_cwd cwd0 espDir ok).1 = cwd0
  ∧ (run_pytest_cwd cwd0 project ok).1 = cwd0 := by
  cases ok <;> exact ⟨rfl, rfl, rfl, rfl, rfl, rfl⟩

/-! ## Port enumerator (src/esp_utils.py lines 113-170) -/

/-- One discovered serial device, as `serial.tools.list_ports` reports it:
device path, optional USB vendor and product IDs, free-text description. -/
structure PortInfo where
  device : String
  vid : Option Nat
  pid : Option Nat
  description : String
deriving DecidableEq

/-- Whether `needle` occurs as a contiguous run inside `hay` (character
lists), as the Python `in` operator on strings. -/
def containsSub (needle : List Char) : List Char → Bool
  | [] => needle.isEmpty
  | c :: cs => List.isPrefixOf needle (c :: cs) || containsSub needle cs

/-- `device.lower()`: the characters of the device path, lowercased.  The
device paths this code classifies are ASCII, where `Char.toLower` agrees
with Python's `str.lower`. -/
def lowerChars (s : String) : List Char :=
  s.data.map Char.toLower

/-- The known Espressif USB vendor ID (src/esp_utils.py line 137). -/
def espVid : Nat := 0x303A

/-- `is_usb_cdc` of `_port_rank`: the lowercased device path contains
`"usbmodem"` or `"ttyacm"` (src/esp_utils.py line 149). -/
def isUsbCdcDev (p : PortInfo) : Bool :=
  containsSub "usbmodem".data (lowerChars p.device)
    || containsSub "ttyacm".data (lowerChars p.device)

/-- The numeric class of `_port_rank` (src/esp_utils.py line 150):
0 for an Espressif device on a USB-native path, 1 for any other Espressif
device, 2 otherwise. -/
def rankNum (p : PortInfo) : Nat :=
  if (p.vid == some espVid) && isUsbCdcDev p then 0
  else if p.vid == some espVid then 1
  else 2

/-- The code points of the lowercased device path.  Python compares the
string component of the sort key by code points; mapping to `Nat` preserves
that order exactly. -/
def devCodes (p : PortInfo) : List Nat :=
  (lowerChars p.device).map Char.toNat

/-- The full sort key of `_port_rank`, the class followed by the lowercased
device path, encoded so that lexicographic comparison of the list equals
Python's comparison of the `(int, str)` tuple. -/
def portKey (p : PortInfo) : List Nat :=
  rankNum p :: devCodes p

/-- Lexicographic less-or-equal on code lists (Python's tuple/string
comparison). -/
def natListLe : List Nat → List Nat → Bool
  | [], _ => true
  | _ :: _, [] => false
  | a :: as, b :: bs =>
      if a < b then true else if b < a then false else natListLe as bs

/-- The order `ports.sort(key=_port_rank)` sorts by. -/
def portLe (a b : PortInfo) : Prop :=
  natListLe (portKey a) (portKey b) = true

theorem natListLe_total : ∀ a b : List Nat,
    natListLe a b = true ∨ natListLe b a = true := by
  intro a
  induction a with
  | nil => intro b; left; rfl
  | cons x xs ih =>
      intro b
      cases b with
      | nil => right; rfl
      | cons y ys =>
          by_cases h1 : x < y
          · left; simp [natListLe, h1]
          · by_cases h2 : y < x
            · right; simp [natListLe, h2]
            · have hxy : x = y := by omega
              subst hxy
              rcases ih ys with h | h
              · left; simp [natListLe, h, h1]
              · right; simp [natListLe, h, h1]

theorem natListLe_trans : ∀ a b c : List Nat,
    natListLe a b = true → natListLe b c = true → natListLe a c = true := by
  intro a
  induction a with
  | nil => intro b c _ _; rfl
  | cons x xs ih =>
      intro b c hab hbc
      cases b with
      | nil => simp [natListLe] at hab
      | cons y ys =>
          cases c with
          | nil => simp [natListLe] at hbc
          | cons z zs =>
              by_cases hxy : x < y
              · by_cases hyz : y < z
                · simp [natListLe, show x < z by omega]
                · by_cases hzy : z < y
                  · simp [natListLe, hyz, hzy] at hbc
                  · have : y = z := by omega
                    subst this
                    simp [natListLe, hxy]
              · by_cases hyx : y < x
                · simp [natListLe, hxy, hyx] at hab
                · have hx : x = y := by omega
                  subst hx
                  simp [natListLe, hxy] at hab
                  by_cases hyz : x < z
                  · simp [natListLe, hyz]
                  · by_cases hzy : z < x
                    · simp [natListLe, hyz, hzy] at hbc
                    · have : x = z := by omega
                      subst this
                      simp [natListLe, hyz] at hbc ⊢
                      exact ih ys zs hab hbc

instance : DecidableRel portLe :=
  fun a b => inferInstanceAs (Decidable (natListLe (portKey a) (portKey b) = true))

instance : IsTotal PortInfo portLe :=
  ⟨fun a b => natListLe_total (portKey a) (portKey b)⟩

instance : IsTrans PortInfo portLe :=
  ⟨fun a b c => natListLe_trans (portKey a) (portKey b) (portKey c)⟩

/-- `ports.sort(key=_port_rank)` (src/esp_utils.py line 152): a stable sort
by the key order; modelled as insertion sort, which is also stable. -/
def sortPorts (ports : List PortInfo) : List PortInfo :=
  List.insertionSort portLe ports

/-- The filter block (src/esp_utils.py lines 139-142): keep only exact
vendor-ID matches when a vid filter is given, then only exact product-ID
matches when a pid filter is given.  A device with an absent ID never
matches a filter, as `None == vid` is false in Python. -/
def filteredPorts (ports : List PortInfo) (vid pid : Option Nat) : List PortInfo :=
  match vid, pid with
  | none, none => ports
  | some v, none => ports.filter (fun p => p.vid == some v)
  | none, some q => ports.filter (fun p => p.pid == some q)
  | some v, some q =>
      (ports.filter (fun p => p.vid == some v)).filter (fun p => p.pid == some q)

/-- The device list after filtering and the no-filter preference sort
(src/esp_utils.py lines 139-152): the sort runs only when neither filter
was supplied. -/
def keptPorts (ports : List PortInfo) (vid pid : Option Nat) : List PortInfo :=
  match vid, pid with
  | none, none => sortPorts ports
  | _, _ => filteredPorts ports vid pid

/-- Big-endian lowercase hex digits of `n`, no leading zeros (`"0"` for 0) —
the digits Python's `x` format code produces. -/
def hexChars (n : Nat) : List Char :=
  if _h : n < 16 then [Nat.digitChar n]
  else hexChars (n / 16) ++ [Nat.digitChar (n % 16)]
termination_by n
decreasing_by exact Nat.div_lt_self (by omega) (by omega)

/-- Python `f"{n:04x}"`: lowercase hex, left-padded with zeros to width 4. -/
def hexPad4 (n : Nat) : String :=
  String.mk (List.replicate (4 - (hexChars n).length) '0' ++ hexChars n)

/-- `f"0x{id:04x}" if id is not None else "unknown"`
(src/esp_utils.py lines 156-157). -/
def fmtId : Option Nat → String
  | some n => "0x" ++ hexPad4 n
  | none => "unknown"

/-- Python `str.rstrip()`: drop trailing whitespace characters. -/
def rstrip (s : String) : String :=
  String.mk (s.data.reverse.dropWhile (fun c => c.isWhitespace)).reverse

/-- One output line (src/esp_utils.py line 159):
`f"{port.device}\tvid={vid_str} pid={pid_str} {desc}".rstrip()`. -/
def formatLine (p : PortInfo) : String :=
  rstrip (p.device ++ "\t" ++ "vid=" ++ fmtId p.vid ++ " pid=" ++ fmtId p.pid
    ++ " " ++ p.description)

/-- The static fallback list (src/esp_utils.py lines 167-168). -/
def commonPorts : List String :=
  ["/dev/ttyUSB0", "/dev/ttyUSB1", "/dev/ttyACM0", "/dev/ttyACM1",
   "/dev/cu.usbserial-*", "/dev/cu.SLAB_USBtoUART", "COM1", "COM2", "COM3"]

/-- The structured path of `list_serial_ports`
(src/esp_utils.py lines 136-164): filter, optionally sort, format one line
per device; with no remaining device return exit 0 with an explanatory
stderr message, otherwise exit 0 with the joined lines and a trailing
newline. -/
def list_serial_ports (ports : List PortInfo) (vid pid : Option Nat) :
    Int × String × String :=
  let lines := (keptPorts ports vid pid).map formatLine
  if lines = [] then (0, "", "No serial ports matched the requested filter.")
  else (0, String.intercalate "\n" lines ++ "\n", "")

/-- `list_serial_ports` with its outer `except Exception` branch
(src/esp_utils.py lines 165-170): an enumeration error with message `e`
falls back to exit 0, the static list of common device paths on stdout and
an explanatory note on stderr.  (The separate pyserial-import fallback,
lines 126-134, passes a subprocess result through unchanged and is not part
of this model.) -/
def list_serial_ports_run (outcome : Except String (List PortInfo))
    (vid pid : Option Nat) : Int × String × String :=
  match outcome with
  | Except.ok ports => list_serial_ports ports vid pid
  | Except.error e =>
      (0, "Common ESP device ports to try:\n" ++ String.intercalate "\n" commonPorts,
       "Note: Could not auto-detect ports. Error: " ++ e)

/-- Adjacent-pairs check that a list is ordered by `le`. -/
def chainB (le : PortInfo → PortInfo → Bool) : List PortInfo → Bool
  | [] => true
  | [_] => true
  | a :: b :: rest => le a b && chainB le (b :: rest)

/-- The order the claim describes, following the spec words: rank class
first, ties broken by lexical order of the device path as written (no
lowercasing).  Kept separate from `portLe`, which follows the source. -/
def specTieOrderB (a b : PortInfo) : Bool :=
  natListLe (rankNum a :: a.device.data.map Char.toNat)
    (rankNum b :: b.device.data.map Char.toNat)

/-! ## Toolchain-path resolution and tool steps (src/main.py, src/esp_utils.py) -/

/-- Python truthiness of an optional string: `None` and `""` are falsy. -/
def pyTruthy : Option String → Bool
  | none => false
  | some s => !(s == "")

/-- Python `str.strip()`: drop leading and trailing whitespace. -/
def pyStrip (s : String) : String :=
  String.mk (((s.data.dropWhile (fun c => c.isWhitespace)).reverse.dropWhile
    (fun c => c.isWhitespace)).reverse)

/-- The argument normalisation each tool applies before calling the
resolver: `idf_path if (idf_path and idf_path.strip()) else None`
(src/main.py lines 50, 100, 241, 314). -/
def normArg : Option String → Option String
  | none => none
  | some s => if pyStrip s = "" then none else some s

/-- The message of the `ValueError` raised by `get_esp_idf_dir`
(src/esp_utils.py line 86). -/
def idfErrMsg : String :=
  "IDF_PATH must be provided either as parameter or environment variable"

/-- `get_esp_idf_dir` (src/esp_utils.py lines 70-86): a truthy explicit path
wins; otherwise the `IDF_PATH` environment variable, present even when
empty; otherwise a raised `ValueError`, modelled as `Except.error`. -/
def get_esp_idf_dir (idf_path env_idf : Option String) : Except String String :=
  if pyTruthy idf_path then Except.ok (idf_path.getD "")
  else
    match env_idf with
    | some v => Except.ok v
    | none => Except.error idfErrMsg

/-- `os.path.join(dir, name)` for the shapes this code builds. -/
def joinPath (dir name : String) : String :=
  if dir = "" then name
  else if dir.data.getLast? = some '/' then dir ++ name
  else dir ++ "/" ++ name

/-- `get_export_script` (src/esp_utils.py lines 88-97): the export script
under the resolved toolchain directory; the resolver's `ValueError`
propagates through it. -/
def get_export_script (idf_path env_idf : Option String) : Except String String :=
  match get_esp_idf_dir idf_path env_idf with
  | Except.ok d => Except.ok (joinPath d "export.sh")
  | Except.error e => Except.error e

/-- How a tool operation proceeds after resolving the toolchain path and
before any subprocess work: it raises an uncaught exception, returns an
`(stdout, stderr)` tuple without executing anything, or goes on to execute
a shell command. -/
inductive ToolStep where
  | raised (msg : String)
  | returned (stdout stderr : String)
  | execute (cmd : String)
deriving DecidableEq

/-- Whether the step returned a tuple to the caller. -/
def ToolStep.isReturned : ToolStep → Bool
  | ToolStep.returned _ _ => true
  | _ => false

/-- `build_esp_project` up to process execution (src/main.py lines 48-65,
shown for the incremental-build command): `get_export_script` is called
outside any `try`, so its `ValueError` propagates to the caller. -/
def build_esp_project_step (idf_path env_idf : Option String) : ToolStep :=
  match get_export_script (normArg idf_path) env_idf with
  | Except.error e => ToolStep.raised e
  | Except.ok script =>
      ToolStep.execute ("bash -c \"source " ++ script ++ " && idf.py build\"")

/-- `setup_project_esp_target` up to process execution
(src/main.py lines 98-107). -/
def setup_project_esp_target_step (idf_path env_idf : Option String)
    (target : String) : ToolStep :=
  match get_export_script (normArg idf_path) env_idf with
  | Except.error e => ToolStep.raised e
  | Except.ok script =>
      ToolStep.execute ("bash -c 'source " ++ script ++ " && idf.py set-target "
        ++ target ++ "'")

/-- `create_esp_project` up to process execution (src/main.py lines 127-134):
`get_export_script()` is called with no argument, so only the environment
variable can supply the toolchain path. -/
def create_esp_project_step (env_idf : Option String)
    (project_path project_name : String) : ToolStep :=
  match get_export_script none env_idf with
  | Except.error e => ToolStep.raised e
  | Except.ok script =>
      ToolStep.execute ("bash -c 'source " ++ script
        ++ " && idf.py create-project --path " ++ project_path ++ " "
        ++ project_name ++ "'")

/-- `flash_esp_project` up to process execution (src/main.py lines 153-175,
shown for the no-port, no-filter command variant; the port and port-filter
variants differ only in the command text, which is built after the same
`get_export_script()` call). -/
def flash_esp_project_step (env_idf : Option String) : ToolStep :=
  match get_export_script none env_idf with
  | Except.error e => ToolStep.raised e
  | Except.ok script =>
      ToolStep.execute ("bash -c 'source " ++ script ++ " && idf.py flash'")

/-- `run_pytest` up to process execution (src/main.py lines 309-324, with
empty extra arguments): the resolver runs inside `try/finally`, but the
`finally` block only restores the working directory, so the `ValueError`
still propagates. -/
def run_pytest_step (idf_path env_idf : Option String) (test_path : String) :
    ToolStep :=
  match get_export_script (normArg idf_path) env_idf with
  | Except.error e => ToolStep.raised e
  | Except.ok script =>
      ToolStep.execute ("bash -c 'source " ++ script ++ " && pytest "
        ++ test_path ++ "'")

/-- `run_esp_idf_install` up to process execution
(src/main.py lines 237-264): this operation alone catches the resolver's
`ValueError` and returns `("", message)`; a missing `install.sh` is also a
returned error. -/
def run_esp_idf_install_step (idf_path env_idf : Option String)
    (install_sh_exists : Bool) : ToolStep :=
  match get_esp_idf_dir (normArg idf_path) env_idf with
  | Except.error e => ToolStep.returned "" e
  | Except.ok dir =>
      if install_sh_exists then
        ToolStep.execute ("bash " ++ joinPath dir "install.sh")
      else
        ToolStep.returned "" ("install.sh not found at " ++ joinPath dir "install.sh"
          ++ ". Please verify the ESP-IDF path is correct.")

/-! ## Log files written by the tool operations (src/main.py) -/

/-- `_timestamped(name)` (src/main.py lines 23-24) with `ts` the
`time.strftime("%Y%m%d-%H%M%S")` result, a 15-character stamp. -/
def timestampedLog (name ts : String) : String :=
  name ++ "-" ++ ts ++ ".log"

/-- Log files one `build_esp_project` call writes (src/main.py lines 61,
76-77): the streamed live log and, after completion, the fixed and
timestamped snapshots. -/
def build_esp_project_logWrites (ts : String) : List String :=
  ["mcp-process-live.log", "mcp-process.log", timestampedLog "mcp-process" ts]

/-- Log files of `setup_project_esp_target` (src/main.py lines 103,
108-109). -/
def setup_project_esp_target_logWrites (ts : String) : List String :=
  ["mcp-set-target-live.log", "mcp-set-target.log",
   timestampedLog "mcp-set-target" ts]

/-- Log files of `create_esp_project` (src/main.py lines 130, 135-136). -/
def create_esp_project_logWrites (ts : String) : List String :=
  ["mcp-project-root-path-live.log", "mcp-project-root-path.log",
   timestampedLog "mcp-project-root-path" ts]

/-- Log files of `flash_esp_project` (src/main.py lines 178, 191-192). -/
def flash_esp_project_logWrites (ts : String) : List String :=
  ["mcp-flash-live.log", "mcp-flash.log", timestampedLog "mcp-flash" ts]

/-- Log files of `run_esp_idf_install` (src/main.py lines 260, 277-278). -/
def run_esp_idf_install_logWrites (ts : String) : List String :=
  ["mcp-install-live.log", "mcp-install.log", timestampedLog "mcp-install" ts]

/-- Log files of `run_pytest` (src/main.py lines 323, 328): the streamed
live log and the fixed completion log — no timestamped snapshot is
written. -/
def run_pytest_logWrites (_ts : String) : List String :=
  ["mcp-pytest-live.log", "mcp-pytest.log"]

/-! ## Helper lemmas for hex formatting and strings -/

theorem hexChars_small (n : Nat) (h : n < 16) :
    hexChars n = [Nat.digitChar n] := by
  unfold hexChars
  simp [h]

theorem hexChars_large (n : Nat) (h : ¬ n < 16) :
    hexChars n = hexChars (n / 16) ++ [Nat.digitChar (n % 16)] := by
  conv_lhs => rw [hexChars]
  simp [h]

theorem hexChars_mem (n : Nat) :
    ∀ c ∈ hexChars n, c ∈ ("0123456789abcdef".data) := by
  induction n using Nat.strong_induction_on with
  | _ n ih =>
      have hdc : ∀ m, m < 16 → Nat.digitChar m ∈ ("0123456789abcdef".data) := by
        decide
      by_cases h : n < 16
      · rw [hexChars_small n h]
        intro c hc
        simp at hc
        subst hc
        exact hdc n h
      · rw [hexChars_large n h]
        intro c hc
        rcases List.mem_append.mp hc with h1 | h2
        · exact ih (n / 16) (Nat.div_lt_self (by omega) (by omega)) c h1
        · simp at h2
          subst h2
          exact hdc (n % 16) (Nat.mod_lt _ (by omega))

theorem hexChars_len : ∀ k n, 1 ≤ k → n < 16 ^ k → (hexChars n).length ≤ k := by
  intro k
  induction k with
  | zero => intro n h; omega
  | succ j ih =>
      intro n _ hn
      by_cases h : n < 16
      · rw [hexChars_small n h]
        simp
      · rw [hexChars_large n h]
        have hj : j ≠ 0 := by
          intro hj0
          subst hj0
          simp [pow_succ, pow_zero] at hn
          omega
        have hdiv : n / 16 < 16 ^ j := by
          rw [Nat.div_lt_iff_lt_mul (by omega)]
          calc n < 16 ^ (j + 1) := hn
            _ = 16 ^ j * 16 := by rw [pow_succ]
        have := ih (n / 16) (by omega) hdiv
        simp [List.length_append]
        omega

theorem hexPad4_length (n : Nat) (h : n < 65536) : (hexPad4 n).length = 4 := by
  have h4 : n < 16 ^ 4 := by norm_num; omega
  have hlen := hexChars_len 4 n (by omega) h4
  show (List.replicate (4 - (hexChars n).length) '0' ++ hexChars n).length = 4
  rw [List.length_append, List.length_replicate]
  omega

theorem hexPad4_mem (n : Nat) :
    ∀ c ∈ (hexPad4 n).data, c ∈ ("0123456789abcdef".data) := by
  intro c hc
  have hc2 : c ∈ List.replicate (4 - (hexChars n).length) '0' ++ hexChars n := hc
  rcases List.mem_append.mp hc2 with h1 | h2
  · have := List.eq_of_mem_replicate h1
    subst this
    decide
  · exact hexChars_mem n c h2

theorem append_ne_empty_left (a b : String) (h : a.length ≠ 0) : a ++ b ≠ "" := by
  intro hc
  have hlen := congrArg String.length hc
  rw [String.length_append] at hlen
  have h0 : ("" : String).length = 0 := rfl
  omega

/-! ## Claim theorems: port enumerator -/

/-- Claim C5, counterexample to the claim as stated: two Espressif devices
of the same rank class whose paths differ only in letter case.  The sort
key lowercases the device path, so the code orders `"/dev/a"` before
`"/dev/Z"`, while lexical order of the paths as written puts `"/dev/Z"`
(code point 90) before `"/dev/a"` (code point 97): the produced list is not
ordered by the claim's tie-break. -/
theorem port_sort_tiebreak_counterexample :
    keptPorts [⟨"/dev/Z", some 0x303A, none, ""⟩,
        ⟨"/dev/a", some 0x303A, none, ""⟩] none none
      = [⟨"/dev/a", some 0x303A, none, ""⟩, ⟨"/dev/Z", some 0x303A, none, ""⟩]
  ∧ chainB specTieOrderB
      [⟨"/dev/a", some 0x303A, none, ""⟩, ⟨"/dev/Z", some 0x303A, none, ""⟩]
      = false := by
  exact ⟨by decide, by decide⟩

/-- Claim C5 as amended: with neither filter supplied, the returned device
list is a permutation of the discovered devices ordered by `portLe`:
devices with vendor ID 0x303A and a USB-native path pattern (lowercased
path containing "usbmodem" or "ttyacm") first, all other 0x303A devices
second, all remaining devices last, with ties broken by lexical
(code-point) order of the lowercased device path. -/
theorem port_default_ordering (ports : List PortInfo) :
    List.Sorted portLe (keptPorts ports none none)
  ∧ List.Perm (keptPorts ports none none) ports := by
  constructor
  · exact List.sorted_insertionSort portLe ports
  · exact List.perm_insertionSort portLe ports

/-- Claim C6: filtering keeps exactly the devices whose vendor ID (and,
independently, product ID) equals the filter value — same order, no other
device — and the ID formatter produces `"0x"` followed by exactly four
lowercase hex digits for any 16-bit value, or the literal `"unknown"` for
an absent ID. -/
theorem port_filter_and_format (ports : List PortInfo) (v q n : Nat)
    (h : n < 65536) :
    keptPorts ports (some v) none = ports.filter (fun p => p.vid == some v)
  ∧ keptPorts ports none (some q) = ports.filter (fun p => p.pid == some q)
  ∧ keptPorts ports (some v) (some q)
      = (ports.filter (fun p => p.vid == some v)).filter (fun p => p.pid == some q)
  ∧ (∀ p, p ∈ keptPorts ports (some v) (some q) → p.vid = some v ∧ p.pid = some q)
  ∧ (hexPad4 n).length = 4
  ∧ (∀ c, c ∈ (hexPad4 n).data → c ∈ ("0123456789abcdef".data))
  ∧ fmtId (some n) = "0x" ++ hexPad4 n
  ∧ fmtId none = "unknown" := by
  refine ⟨rfl, rfl, rfl, ?_, hexPad4_length n h, hexPad4_mem n, rfl, rfl⟩
  intro p hp
  have hp2 : p ∈ (ports.filter (fun p => p.vid == some v)).filter
      (fun p => p.pid == some q) := hp
  rcases List.mem_filter.mp hp2 with ⟨hp1, hq⟩
  rcases List.mem_filter.mp hp1 with ⟨_, hv⟩
  exact ⟨by simpa using hv, by simpa using hq⟩

/-- Witness for the filter-and-format theorem at concrete inputs
(vendor filter 0x303A, product filter 2, formatted value 0x303A). -/
theorem port_filter_and_format_witness :
    (0x303A : Nat) < 65536
  ∧ (keptPorts [] (some 0x303A) none
        = List.filter (fun p => p.vid == some 0x303A) []
     ∧ keptPorts [] none (some 2) = List.filter (fun p => p.pid == some 2) []
     ∧ keptPorts [] (some 0x303A) (some 2)
        = (List.filter (fun p => p.vid == some 0x303A) []).filter
            (fun p => p.pid == some 2)
     ∧ (∀ p, p ∈ keptPorts [] (some 0x303A) (some 2) →
          p.vid = some 0x303A ∧ p.pid = some 2)
     ∧ (hexPad4 0x303A).length = 4
     ∧ (∀ c, c ∈ (hexPad4 0x303A).data → c ∈ ("0123456789abcdef".data))
     ∧ fmtId (some 0x303A) = "0x" ++ hexPad4 0x303A
     ∧ fmtId none = "unknown") :=
  ⟨by decide, port_filter_and_format [] 0x303A 2 0x303A (by decide)⟩

/-- Claim C7: serial-port enumeration never hard-fails.  When enumeration
raises (outer `except Exception`), the result is exit code 0, the non-empty
static list of common device paths on stdout and a non-empty note on
stderr; when zero devices remain after filtering, the result is exit code 0
with the non-empty explanatory stderr message. -/
theorem port_enumeration_soft_failure (e : String) (ports : List PortInfo)
    (vid pid : Option Nat) (h : keptPorts ports vid pid = []) :
    (list_serial_ports_run (Except.error e) vid pid).1 = 0
  ∧ (list_serial_ports_run (Except.error e) vid pid).2.1 ≠ ""
  ∧ (list_serial_ports_run (Except.error e) vid pid).2.2 ≠ ""
  ∧ list_serial_ports ports vid pid
      = (0, "", "No serial ports matched the requested filter.")
  ∧ ("No serial ports matched the requested filter." : String) ≠ "" := by
  refine ⟨rfl, ?_, ?_, ?_, by decide⟩
  · have hst : (list_serial_ports_run (Except.error e) vid pid).2.1
        = "Common ESP device ports to try:\n"
          ++ String.intercalate "\n" commonPorts := rfl
    rw [hst]
    decide
  · have hst : (list_serial_ports_run (Except.error e) vid pid).2.2
        = "Note: Could not auto-detect ports. Error: " ++ e := rfl
    rw [hst]
    exact append_ne_empty_left _ e (by decide)
  · show (if (keptPorts ports vid pid).map formatLine = [] then
        ((0 : Int), "", "No serial ports matched the requested filter.")
      else (0, String.intercalate "\n" ((keptPorts ports vid pid).map formatLine)
        ++ "\n", "")) = _
    rw [h]
    rfl

/-- Witness for the soft-failure theorem at a concrete input: a vendor
filter that matches no discovered device. -/
theorem port_enumeration_soft_failure_witness :
    keptPorts [⟨"/dev/x", none, none, ""⟩] (some 1) none = []
  ∧ ((list_serial_ports_run (Except.error "boom") (some 1) none).1 = 0
     ∧ (list_serial_ports_run (Except.error "boom") (some 1) none).2.1 ≠ ""
     ∧ (list_serial_ports_run (Except.error "boom") (some 1) none).2.2 ≠ ""
     ∧ list_serial_ports [⟨"/dev/x", none, none, ""⟩] (some 1) none
        = (0, "", "No serial ports matched the requested filter.")
     ∧ ("No serial ports matched the requested filter." : String) ≠ "") :=
  ⟨by decide,
   port_enumeration_soft_failure "boom" [⟨"/dev/x", none, none, ""⟩]
     (some 1) none (by decide)⟩

/-! ## Claim theorems: toolchain configuration and log writes -/

/-- Claim C8, counterexample to the claim as stated: with no explicit path
and no `IDF_PATH` in the environment, `build_esp_project` raises the
`ValueError` of `get_esp_idf_dir` — the step is a propagated exception, not
a returned error string. -/
theorem build_missing_idf_uncaught :
    build_esp_project_step none none = ToolStep.raised idfErrMsg
  ∧ (build_esp_project_step none none).isReturned = false :=
  ⟨rfl, rfl⟩

/-- Claim C8 as amended: when no truthy explicit toolchain path is given
and `IDF_PATH` is unset, every toolchain-requiring tool operation stops
before any process execution with an error identifying the missing
requirement; `run_esp_idf_install` surfaces it as a returned error string,
while `build_esp_project`, `setup_project_esp_target`, `create_esp_project`,
`flash_esp_project` and `run_pytest` raise it as an uncaught `ValueError`. -/
theorem missing_toolchain_behavior (idf : Option String)
    (h : normArg idf = none) (b : Bool) (target proj name tpath : String) :
    build_esp_project_step idf none = ToolStep.raised idfErrMsg
  ∧ setup_project_esp_target_step idf none target = ToolStep.raised idfErrMsg
  ∧ create_esp_project_step none proj name = ToolStep.raised idfErrMsg
  ∧ flash_esp_project_step none = ToolStep.raised idfErrMsg
  ∧ run_pytest_step idf none tpath = ToolStep.raised idfErrMsg
  ∧ run_esp_idf_install_step idf none b = ToolStep.returned "" idfErrMsg := by
  refine ⟨?_, ?_, rfl, rfl, ?_, ?_⟩
  · simp [build_esp_project_step, get_export_script, get_esp_idf_dir, h, pyTruthy]
  · simp [setup_project_esp_target_step, get_export_script, get_esp_idf_dir, h,
      pyTruthy]
  · simp [run_pytest_step, get_export_script, get_esp_idf_dir, h, pyTruthy]
  · simp [run_esp_idf_install_step, get_esp_idf_dir, h, pyTruthy]

/-- Witness for the missing-toolchain theorem at a concrete input: an
explicit path of one space, which Python's truthiness test normalises to
`None`. -/
theorem missing_toolchain_behavior_witness :
    normArg (some " ") = none
  ∧ (build_esp_project_step (some " ") none = ToolStep.raised idfErrMsg
     ∧ setup_project_esp_target_step (some " ") none "esp32"
        = ToolStep.raised idfErrMsg
     ∧ create_esp_project_step none "/p" "app" = ToolStep.raised idfErrMsg
     ∧ flash_esp_project_step none = ToolStep.raised idfErrMsg
     ∧ run_pytest_step (some " ") none "." = ToolStep.raised idfErrMsg
     ∧ run_esp_idf_install_step (some " ") none true
        = ToolStep.returned "" idfErrMsg) :=
  ⟨by decide,
   missing_toolchain_behavior (some " ") (by decide) true "esp32" "/p" "app" "."⟩

/-- Claim C9, counterexample to the claim as stated: `run_pytest` executes
an external process, yet the files it writes for a run stamped
`20260101-120000` include no timestamped snapshot
`mcp-pytest-20260101-120000.log`. -/
theorem pytest_missing_timestamped_log :
    ¬ timestampedLog "mcp-pytest" "20260101-120000"
        ∈ run_pytest_logWrites "20260101-120000" := by
  decide

/-- Claim C9 as amended: `build_esp_project`, `setup_project_esp_target`,
`create_esp_project`, `flash_esp_project` and `run_esp_idf_install` each
write both a fixed-named live log (the path streamed to during execution)
and a timestamped snapshot named `<operation>-<ts>.log`; `run_pytest`
writes its live log and fixed completion log but no timestamped snapshot. -/
theorem operation_log_writes (ts : String) (h : ts.length = 15) :
    timestampedLog "mcp-process" ts ∈ build_esp_project_logWrites ts
  ∧ "mcp-process-live.log" ∈ build_esp_project_logWrites ts
  ∧ timestampedLog "mcp-set-target" ts ∈ setup_project_esp_target_logWrites ts
  ∧ "mcp-set-target-live.log" ∈ setup_project_esp_target_logWrites ts
  ∧ timestampedLog "mcp-project-root-path" ts ∈ create_esp_project_logWrites ts
  ∧ "mcp-project-root-path-live.log" ∈ create_esp_project_logWrites ts
  ∧ timestampedLog "mcp-flash" ts ∈ flash_esp_project_logWrites ts
  ∧ "mcp-flash-live.log" ∈ flash_esp_project_logWrites ts
  ∧ timestampedLog "mcp-install" ts ∈ run_esp_idf_install_logWrites ts
  ∧ "mcp-install-live.log" ∈ run_esp_idf_install_logWrites ts
  ∧ "mcp-pytest-live.log" ∈ run_pytest_logWrites ts
  ∧ ¬ timestampedLog "mcp-pytest" ts ∈ run_pytest_logWrites ts := by
  refine ⟨by simp [build_esp_project_logWrites],
    by simp [build_esp_project_logWrites],
    by simp [setup_project_esp_target_logWrites],
    by simp [setup_project_esp_target_logWrites],
    by simp [create_esp_project_logWrites],
    by simp [create_esp_project_logWrites],
    by simp [flash_esp_project_logWrites],
    by simp [flash_esp_project_logWrites],
    by simp [run_esp_idf_install_logWrites],
    by simp [run_esp_idf_install_logWrites],
    by simp [run_pytest_logWrites], ?_⟩
  intro hmem
  have e1 : ("mcp-pytest" : String).length = 10 := rfl
  have e2 : ("-" : String).length = 1 := rfl
  have e3 : (".log" : String).length = 4 := rfl
  have e4 : ("mcp-pytest-live.log" : String).length = 19 := rfl
  have e5 : ("mcp-pytest.log" : String).length = 14 := rfl
  simp only [run_pytest_logWrites, List.mem_cons, List.not_mem_nil,
    or_false] at hmem
  rcases hmem with h1 | h2
  · have hl := congrArg String.length h1
    simp only [timestampedLog, String.length_append] at hl
    omega
  · have hl := congrArg String.length h2
    simp only [timestampedLog, String.length_append] at hl
    omega

/-- Witness for the log-writes theorem at a concrete 15-character
timestamp. -/
theorem operation_log_writes_witness :
    ("20260101-120000" : String).length = 15
  ∧ (timestampedLog "mcp-process" "20260101-120000"
        ∈ build_esp_project_logWrites "20260101-120000"
     ∧ "mcp-process-live.log" ∈ build_esp_project_logWrites "20260101-120000"
     ∧ timestampedLog "mcp-set-target" "20260101-120000"
        ∈ setup_project_esp_target_logWrites "20260101-120000"
     ∧ "mcp-set-target-live.log"
        ∈ setup_project_esp_target_logWrites "20260101-120000"
     ∧ timestampedLog "mcp-project-root-path" "20260101-120000"
        ∈ create_esp_project_logWrites "20260101-120000"
     ∧ "mcp-project-root-path-live.log"
        ∈ create_esp_project_logWrites "20260101-120000"
     ∧ timestampedLog "mcp-flash" "20260101-120000"
        ∈ flash_esp_project_logWrites "20260101-120000"
     ∧ "mcp-flash-live.log" ∈ flash_esp_project_logWrites "20260101-120000"
     ∧ timestampedLog "mcp-install" "20260101-120000"
        ∈ run_esp_idf_install_logWrites "20260101-120000"
     ∧ "mcp-install-live.log" ∈ run_esp_idf_install_logWrites "20260101-120000"
     ∧ "mcp-pytest-live.log" ∈ run_pytest_logWrites "20260101-120000"
     ∧ ¬ timestampedLog "mcp-pytest" "20260101-120000"
        ∈ run_pytest_logWrites "20260101-120000") :=
  ⟨rfl, operation_log_writes "20260101-120000" rfl⟩
